import Mathlib

/-!
Verification of the KOM wind-forecast favorability engine.

The definitions below are a shallow embedding of the Python sources
(`main.py`, `kom_reader.py`, `get_wind_forecast.py`, `config.py`).
Python floats are modelled as real numbers (the exact arithmetic the
spec describes), Python's builtin `round` as round-half-to-even,
Python's `%` with a positive real divisor as floor-mod, and Python's
`int(...)` conversion as truncation toward zero.  A timestamp is
modelled as a calendar date (an integer day index, standing for
`datetime.date`) together with a local wall-clock time of day (a
rational, standing for `datetime.time`); these two projections are all
the engine ever reads from a `datetime`.
-/

/-- Python's builtin `round` applied to a real value: round half to even. -/
noncomputable def pyRound (x : ℝ) : ℤ :=
  if Int.fract x = 1 / 2 then (if Even ⌊x⌋ then ⌊x⌋ else ⌊x⌋ + 1) else round x

/-- Python's `x % 360` on reals: floor-mod, with result in `[0, 360)`. -/
noncomputable def pymod360 (x : ℝ) : ℝ := x - 360 * ⌊x / 360⌋

/-- Python's `int(...)` applied to a rational value: truncation toward zero. -/
def pyint (q : ℚ) : ℤ := if q < 0 then ⌈q⌉ else ⌊q⌋

/-- A timezone-aware timestamp as the engine observes it: its calendar
date (`datetime.date()`, an integer day index) and its local wall-clock
time of day (`datetime.time()`, a rational in arbitrary fixed units). -/
structure DateTime where
  date : ℤ
  time : ℚ
deriving DecidableEq

/-- One entry of the forecast list built in `get_wind_forecast.py`
(`forecast_for_datetime`).  The engine reads `datetime`, `wind_speed`,
`wind_degrees`, `sunrise` and `sunset`; the remaining fields are
display-only payload carried along with the record.  (The source dict
also carries a redundant `date_string`, omitted here.) -/
structure WindForecast where
  datetime : DateTime
  wind_speed : ℝ
  wind_direction : String
  wind_degrees : ℝ
  wind_gust : Option ℝ
  sunrise : DateTime
  sunset : DateTime
  temperature : ℝ
  icon : String

/-- `main.calculate_absolute_angle_difference`: rotate the wind's
coming-from bearing by 180°, reduce mod 360, and take the minimal
absolute separation from the segment bearing. -/
noncomputable def calculate_absolute_angle_difference (segment_deg wind_deg : ℝ) : ℝ :=
  let wind_to_deg := pymod360 (wind_deg + 180)
  let angle_diff := |segment_deg - wind_to_deg|
  min angle_diff (360 - angle_diff)

/-- `main.calculate_wind_alignment_score`: hard cutoff beyond the
tolerance, cosine decay inside it. -/
noncomputable def calculate_wind_alignment_score
    (segment_deg wind_deg degree_tolerance : ℝ) : ℝ :=
  let angle_diff := calculate_absolute_angle_difference segment_deg wind_deg
  if angle_diff > degree_tolerance then 0
  else Real.cos (angle_diff / degree_tolerance * (Real.pi / 2))

/-- `main.is_daylight_hours`: compare local wall-clock times of day only,
inclusive at sunrise and exclusive at sunset. -/
def is_daylight_hours (datetime_to_check sunrise sunset : DateTime) : Bool :=
  decide (sunrise.time ≤ datetime_to_check.time ∧ datetime_to_check.time < sunset.time)

/-- The filtering loop of `main.find_favorable_wind_conditions_for_a_segment`
(the construction of the `favorable_conditions` accumulator).  The
`top_wind_speed` argument stands for the global `Config.TOP_WIND_SPEED`
the loop body reads. -/
noncomputable def favorable_conditions
    (segment_deg min_wind_speed_needed direction_tolerance_in_degrees : ℝ)
    (desired_quality_percentage : ℤ) (top_wind_speed : ℝ) :
    List WindForecast → List (ℝ × WindForecast)
  | [] => []
  | forecast :: rest =>
      let tail := favorable_conditions segment_deg min_wind_speed_needed
        direction_tolerance_in_degrees desired_quality_percentage top_wind_speed rest
      if ¬ is_daylight_hours forecast.datetime forecast.sunrise forecast.sunset then tail
      else if forecast.wind_speed < min_wind_speed_needed then tail
      else
        let wind_alignment_score := calculate_wind_alignment_score segment_deg
          forecast.wind_degrees direction_tolerance_in_degrees
        if wind_alignment_score = 0 then tail
        else
          let wind_speed_score := min (forecast.wind_speed / top_wind_speed) 1
          let overall_score := wind_alignment_score * 0.3 + wind_speed_score * 0.7
          if pyRound (overall_score * 100) < desired_quality_percentage then tail
          else (overall_score, forecast) :: tail

/-- `main.find_favorable_wind_conditions_for_a_segment`: run the filter
loop, group the survivors by calendar date (a Python dict keyed by date
whose keys are then sorted ascending), and stable-sort each date group
by score descending (`sorted(..., reverse=True, key=lambda x: x[0])`).
The date keys are the distinct dates occurring among the survivors; each
group holds its survivors in encounter order before sorting.  A stable
descending sort is modelled by `List.insertionSort` with the total
relation comparing scores with `≥`, which inserts every element after
all earlier-emitted elements of equal score. -/
noncomputable def find_favorable_wind_conditions_for_a_segment
    (segment_deg : ℝ) (forecast_list : List WindForecast)
    (min_wind_speed_needed direction_tolerance_in_degrees : ℝ)
    (desired_quality_percentage : ℤ) (top_wind_speed : ℝ) :
    List (ℝ × WindForecast) :=
  let favorable := favorable_conditions segment_deg min_wind_speed_needed
    direction_tolerance_in_degrees desired_quality_percentage top_wind_speed forecast_list
  let dates := List.insertionSort (· ≤ ·) ((favorable.map (fun x => x.2.datetime.date)).dedup)
  (dates.map (fun date =>
    List.insertionSort (fun a b => b.1 ≤ a.1)
      (favorable.filter (fun x => x.2.datetime.date = date)))).flatten

/-- Python's `str.strip()`: drop leading and trailing whitespace.
Implemented structurally over the character list so that proofs can
evaluate it. -/
def stripChars (l : List Char) : List Char :=
  ((l.dropWhile Char.isWhitespace).reverse.dropWhile Char.isWhitespace).reverse

/-- Python's `str.replace(" min", "")`: remove every occurrence of the
four characters `" min"`, scanning left to right and continuing after
each removal, exactly as `str.replace` does. -/
def replaceMin : List Char → List Char
  | ' ' :: 'm' :: 'i' :: 'n' :: t => replaceMin t
  | a :: t => a :: replaceMin t
  | [] => []

/-- Python's `str.split(sep)` for a one-character separator: split into
the (possibly empty) chunks between occurrences of `c`. -/
def splitOnChar (c : Char) : List Char → List (List Char)
  | [] => [[]]
  | a :: t =>
      match splitOnChar c t with
      | [] => [[]]
      | h :: r => if a = c then [] :: h :: r else (a :: h) :: r

/-- Python's `float(...)` restricted to the strings this program feeds
it: a nonempty all-digit numeral parses to its value, anything else is
a parse failure (`ValueError` in Python). -/
def charsToNat? (l : List Char) : Option ℕ :=
  if l = [] then none
  else l.foldl (fun acc c =>
    match acc with
    | none => none
    | some n => if c.isDigit then some (n * 10 + (c.toNat - 48)) else none) (some 0)

/-- One row of the KOM segment CSV (`kom_reader.KOMSegment`). -/
structure KOMSegment where
  segment_name : String
  distance : String
  climb : String
  direction : String
  kom_holder : String
  kom_time : String
  speed : String
  my_rank : String
  my_time : String
  my_speed : String

/-- The `direction_to_degrees` dict literal inside
`KOMSegment.get_direction_degrees`, as an association list (uppercase
keys, exactly as written in the source). -/
def direction_to_degrees : List (String × ℚ) :=
  [("N", 0), ("NNE", 22.5), ("NE", 45), ("ENE", 67.5),
   ("E", 90), ("ESE", 112.5), ("SE", 135), ("SSE", 157.5),
   ("S", 180), ("SSW", 202.5), ("SW", 225), ("WSW", 247.5),
   ("W", 270), ("WNW", 292.5), ("NW", 315), ("NNW", 337.5)]

/-- `kom_reader.KOMSegment.get_direction_degrees`:
`direction_to_degrees.get(self.direction.strip(), 0)`.  The dict lookup
compares the stripped label case-sensitively and falls back to `0`. -/
def KOMSegment.get_direction_degrees (segment : KOMSegment) : ℚ :=
  (direction_to_degrees.lookup (String.mk (stripChars segment.direction.data))).getD 0

/-- The `directions` list inside `get_wind_forecast.degrees_to_cardinal`. -/
def directions : List String :=
  ["N", "NNE", "NE", "ENE", "E", "ESE", "SE", "SSE",
   "S", "SSW", "SW", "WSW", "W", "WNW", "NW", "NNW"]

/-- `get_wind_forecast.degrees_to_cardinal`:
`val = int((degrees / 22.5) + 0.5); directions[val % 16]`.  Python's
`%` on ints is floor-mod with a nonnegative result here, matching
`Int.emod` for the positive divisor 16, so the index is in bounds. -/
def degrees_to_cardinal (degrees : ℚ) : String :=
  let val := pyint (degrees / 22.5 + 0.5)
  directions.getD (val % 16).toNat ""

/-- `main.parse_time_to_seconds`: drop a trailing `" min"`, strip, split
on `":"` into minutes and seconds, and return `minutes * 60 + seconds`.
On the `M:SS` / `MM:SS` strings in scope both components are decimal
naturals, so Python's `float(...)` is modelled by `charsToNat?`;
any failure Python would raise (wrong number of `:`-separated parts, a
non-numeric part) is `none`. -/
def parse_time_to_seconds (time_str : String) : Option ℚ :=
  let clean_time := stripChars (replaceMin time_str.data)
  match splitOnChar ':' clean_time with
  | [m, s] =>
      match charsToNat? m, charsToNat? s with
      | some minutes, some seconds => some ((minutes : ℚ) * 60 + (seconds : ℚ))
      | _, _ => none
  | _ => none

/-- `main.calculate_speed_difference_needed`: the leading numeral of the
distance string (`segment.distance.split()[0]`, a decimal natural for
the `"<km> km"` strings in scope) converted to miles via 0.621371, the
two times converted to hours, and the speed triple
`(my_speed, kom_speed - my_speed, kom_speed)` in mph.  A parse failure
or a zero duration (Python would raise) is `none`. -/
def calculate_speed_difference_needed (segment : KOMSegment) : Option (ℚ × ℚ × ℚ) :=
  match (((splitOnChar ' ' segment.distance.data).filter (fun w => w ≠ [])).head?.bind
          charsToNat?),
        parse_time_to_seconds segment.kom_time,
        parse_time_to_seconds segment.my_time with
  | some distance_km, some kom_seconds, some my_seconds =>
      let distance_miles := (distance_km : ℚ) * 0.621371
      let kom_time_hours := kom_seconds / 3600
      let my_time_hours := my_seconds / 3600
      if kom_time_hours = 0 ∨ my_time_hours = 0 then none
      else some (distance_miles / my_time_hours,
                 distance_miles / kom_time_hours - distance_miles / my_time_hours,
                 distance_miles / kom_time_hours)
  | _, _, _ => none

/-- `main.format_time_difference_needed`: `diff = my - kom` in seconds,
`minutes = int(diff // 60)` (floor), `seconds = int(diff % 60)` (the
floor-mod lies in `[0, 60)`, then `int` keeps its integer part), printed
as `f"{minutes}:{seconds:02d}"`. -/
def format_time_difference_needed (kom_time my_time : String) : Option String :=
  match parse_time_to_seconds kom_time, parse_time_to_seconds my_time with
  | some kom_seconds, some my_seconds =>
      let diff_seconds := my_seconds - kom_seconds
      let minutes : ℤ := ⌊diff_seconds / 60⌋
      let seconds : ℤ := ⌊diff_seconds - 60 * ⌊diff_seconds / 60⌋⌋
      some (toString minutes ++ ":" ++
        (if seconds < 10 then "0" ++ toString seconds else toString seconds))
  | _, _ => none

/-- The common shape of the angle-difference result: the minimal
circular separation of a signed difference `x` from zero, written the
way `calculate_absolute_angle_difference` computes it.  Proof helper. -/
noncomputable def circdist (x : ℝ) : ℝ := min |x| (360 - |x|)

/-- Observation A of the end-to-end scenario: perfectly aligned 20 mph
wind at local noon, sunrise 6 and sunset 18 on the same day. -/
noncomputable def obsA : WindForecast :=
  ⟨⟨0, 12⟩, 20, "E", 90, none, ⟨0, 6⟩, ⟨0, 18⟩, 70, ""⟩

/-- Observation B of the end-to-end scenario: 10 mph wind from 95°,
also in daylight. -/
noncomputable def obsB : WindForecast :=
  ⟨⟨0, 13⟩, 10, "E", 95, none, ⟨0, 6⟩, ⟨0, 18⟩, 70, ""⟩

/-- Observation C of the end-to-end scenario: identical to A except the
timestamp falls after sunset. -/
noncomputable def obsC : WindForecast :=
  ⟨⟨0, 20⟩, 20, "E", 90, none, ⟨0, 6⟩, ⟨0, 18⟩, 70, ""⟩

/-- The signed `M:SS` rendering of a (possibly negative) whole number of
seconds, following the spec's words for the reported time deficit: a
sign for negative values, then whole minutes of the magnitude, a colon,
and the remaining seconds zero-padded to two digits.  This definition
follows the specification text, for comparison with
`format_time_difference_needed`. -/
def signed_minutes_seconds (total_seconds : ℤ) : String :=
  let magnitude := total_seconds.natAbs
  (if total_seconds < 0 then "-" else "") ++ toString (magnitude / 60) ++ ":" ++
    (if magnitude % 60 < 10 then "0" ++ toString (magnitude % 60)
     else toString (magnitude % 60))

theorem pymod360_nonneg (x : ℝ) : 0 ≤ pymod360 x := by
  have h := Int.floor_le (x / 360)
  rw [pymod360]
  nlinarith

theorem pymod360_lt (x : ℝ) : pymod360 x < 360 := by
  have h := Int.sub_one_lt_floor (x / 360)
  rw [pymod360]
  nlinarith

theorem pymod360_eq_self {x : ℝ} (h0 : 0 ≤ x) (h1 : x < 360) : pymod360 x = x := by
  have hf : ⌊x / 360⌋ = 0 := by
    rw [Int.floor_eq_iff]
    constructor
    · push_cast
      positivity
    · push_cast
      linarith
  rw [pymod360, hf]
  ring

theorem pymod360_eq_sub {x : ℝ} (h0 : 360 ≤ x) (h1 : x < 720) : pymod360 x = x - 360 := by
  have hf : ⌊x / 360⌋ = 1 := by
    rw [Int.floor_eq_iff]
    constructor
    · push_cast
      linarith
    · push_cast
      linarith
  rw [pymod360, hf]
  ring

theorem cad_eq_circdist (a b : ℝ) :
    calculate_absolute_angle_difference a b = circdist (a - pymod360 (b + 180)) := rfl

theorem circdist_neg (x : ℝ) : circdist (-x) = circdist x := by
  rw [circdist, circdist, abs_neg]

theorem circdist_shift {x : ℝ} (h0 : 0 ≤ x) (h1 : x ≤ 360) : circdist (x - 360) = circdist x := by
  have h2 : |x - 360| = 360 - x := by
    rw [abs_of_nonpos (by linarith)]
    ring
  rw [circdist, circdist, h2, abs_of_nonneg h0, sub_sub_cancel, min_comm]

theorem cad_of_small {a b : ℝ} (h0 : 0 ≤ b + 180) (h1 : b + 180 < 360) :
    calculate_absolute_angle_difference a b = circdist (a - (b + 180)) := by
  rw [cad_eq_circdist, pymod360_eq_self h0 h1]

theorem cad_of_large {a b : ℝ} (h0 : 360 ≤ b + 180) (h1 : b + 180 < 720) :
    calculate_absolute_angle_difference a b = circdist (a - (b - 180)) := by
  rw [cad_eq_circdist, pymod360_eq_sub h0 h1]
  ring_nf

theorem cad_symm {a b : ℝ} (ha0 : 0 ≤ a) (ha1 : a < 360) (hb0 : 0 ≤ b) (hb1 : b < 360) :
    calculate_absolute_angle_difference a b = calculate_absolute_angle_difference b a := by
  rcases lt_or_le a 180 with ha | ha <;> rcases lt_or_le b 180 with hb | hb
  · rw [cad_of_small (by linarith) (by linarith), cad_of_small (by linarith) (by linarith)]
    have key : circdist ((a - (b + 180) + 360) - 360) = circdist (a - (b + 180) + 360) :=
      circdist_shift (by linarith) (by linarith)
    have e1 : a - (b + 180) + 360 - 360 = a - (b + 180) := by ring
    have e2 : b - (a + 180) = -(a - (b + 180) + 360) := by ring
    rw [e1] at key
    rw [key, e2, circdist_neg]
  · rw [cad_of_large (by linarith) (by linarith), cad_of_small (by linarith) (by linarith)]
    have e : b - (a + 180) = -(a - (b - 180)) := by ring
    rw [e, circdist_neg]
  · rw [cad_of_small (by linarith) (by linarith), cad_of_large (by linarith) (by linarith)]
    have e : b - (a - 180) = -(a - (b + 180)) := by ring
    rw [e, circdist_neg]
  · rw [cad_of_large (by linarith) (by linarith), cad_of_large (by linarith) (by linarith)]
    have key : circdist ((a - (b - 180)) - 360) = circdist (a - (b - 180)) :=
      circdist_shift (by linarith) (by linarith)
    have e : b - (a - 180) = -((a - (b - 180)) - 360) := by ring
    rw [e, circdist_neg, key]

theorem cad_nonneg {a : ℝ} (b : ℝ) (ha0 : 0 ≤ a) (ha1 : a < 360) :
    0 ≤ calculate_absolute_angle_difference a b := by
  have hp0 := pymod360_nonneg (b + 180)
  have hp1 := pymod360_lt (b + 180)
  rw [cad_eq_circdist, circdist]
  have habs : |a - pymod360 (b + 180)| < 360 := by
    rw [abs_lt]
    constructor <;> linarith
  have := abs_nonneg (a - pymod360 (b + 180))
  rw [le_min_iff]
  constructor <;> linarith

theorem cad_le_180 {a : ℝ} (b : ℝ) : calculate_absolute_angle_difference a b ≤ 180 := by
  rw [cad_eq_circdist, circdist]
  rcases le_total |a - pymod360 (b + 180)| 180 with h | h
  · exact le_trans (min_le_left _ _) h
  · exact le_trans (min_le_right _ _) (by linarith)

theorem cad_270_90 : calculate_absolute_angle_difference 270 90 = 0 := by
  rw [cad_of_small (by norm_num) (by norm_num)]
  rw [circdist]
  norm_num

theorem alignment_score_eq (s w tol : ℝ) :
    calculate_wind_alignment_score s w tol =
      if tol < calculate_absolute_angle_difference s w then 0
      else Real.cos (calculate_absolute_angle_difference s w / tol * (Real.pi / 2)) := rfl

theorem alignment_one_of_cad_zero {s w tol : ℝ} (htol : 0 < tol)
    (h : calculate_absolute_angle_difference s w = 0) :
    calculate_wind_alignment_score s w tol = 1 := by
  rw [alignment_score_eq, h, if_neg (lt_asymm htol)]
  simp

theorem alignment_zero_of_cad_eq_tol {s w tol : ℝ} (htol : 0 < tol)
    (h : calculate_absolute_angle_difference s w = tol) :
    calculate_wind_alignment_score s w tol = 0 := by
  rw [alignment_score_eq, h, if_neg (lt_irrefl tol), div_self htol.ne']
  simp [Real.cos_pi_div_two]

theorem alignment_zero_of_cad_gt_tol {s w tol : ℝ}
    (h : tol < calculate_absolute_angle_difference s w) :
    calculate_wind_alignment_score s w tol = 0 := by
  rw [alignment_score_eq, if_pos h]

theorem alignment_antitone {s w s2 w2 tol : ℝ} (htol : 0 < tol)
    (h0 : 0 ≤ calculate_absolute_angle_difference s w)
    (h12 : calculate_absolute_angle_difference s w ≤ calculate_absolute_angle_difference s2 w2)
    (h2 : calculate_absolute_angle_difference s2 w2 ≤ tol) :
    calculate_wind_alignment_score s2 w2 tol ≤ calculate_wind_alignment_score s w tol := by
  have h1 : calculate_absolute_angle_difference s w ≤ tol := le_trans h12 h2
  rw [alignment_score_eq, alignment_score_eq, if_neg (not_lt.2 h2), if_neg (not_lt.2 h1)]
  have hp : (0 : ℝ) ≤ Real.pi / 2 := by positivity
  refine Real.cos_le_cos_of_nonneg_of_le_pi ?_ ?_ ?_
  · exact mul_nonneg (div_nonneg h0 htol.le) hp
  · have hq : calculate_absolute_angle_difference s2 w2 / tol ≤ 1 := (div_le_one htol).2 h2
    nlinarith [Real.pi_pos]
  · exact mul_le_mul_of_nonneg_right ((div_le_div_iff_of_pos_right htol).2 h12) hp

/-- C3: for every positive tolerance, `calculate_wind_alignment_score`
is exactly 1 at angle difference 0, exactly 0 at angle difference equal
to the tolerance, exactly 0 beyond the tolerance, and monotonically
non-increasing in the angle difference over `[0, tol]`. -/
theorem C3_alignment_boundary (tol : ℝ) (htol : 0 < tol) :
    (∀ s w, calculate_absolute_angle_difference s w = 0 →
      calculate_wind_alignment_score s w tol = 1) ∧
    (∀ s w, calculate_absolute_angle_difference s w = tol →
      calculate_wind_alignment_score s w tol = 0) ∧
    (∀ s w, tol < calculate_absolute_angle_difference s w →
      calculate_wind_alignment_score s w tol = 0) ∧
    (∀ s w s2 w2, 0 ≤ calculate_absolute_angle_difference s w →
      calculate_absolute_angle_difference s w ≤ calculate_absolute_angle_difference s2 w2 →
      calculate_absolute_angle_difference s2 w2 ≤ tol →
      calculate_wind_alignment_score s2 w2 tol ≤ calculate_wind_alignment_score s w tol) :=
  ⟨fun _ _ h => alignment_one_of_cad_zero htol h,
   fun _ _ h => alignment_zero_of_cad_eq_tol htol h,
   fun _ _ h => alignment_zero_of_cad_gt_tol h,
   fun _ _ _ _ h0 h12 h2 => alignment_antitone htol h0 h12 h2⟩

/-- C3 witness: the boundary facts evaluated at tolerance 15 with the
segment at 270° and wind from 90° (angle difference 0). -/
theorem C3_alignment_boundary_witness :
    (0 : ℝ) < 15 ∧ calculate_wind_alignment_score 270 90 15 = 1 :=
  ⟨by norm_num, (C3_alignment_boundary 15 (by norm_num)).1 270 90 cad_270_90⟩

/-- C6 (amended): the angle difference is symmetric on `[0, 360)` and
lands in `[0, 180]`; wraparound at the 0°/360° boundary shows up as
`calculate_absolute_angle_difference 350 190 = 20` (wind coming from
190° blows toward 10°, which is 20° from 350° across north). -/
theorem C6_angle_symmetry (a b : ℝ) (ha0 : 0 ≤ a) (ha1 : a < 360)
    (hb0 : 0 ≤ b) (hb1 : b < 360) :
    calculate_absolute_angle_difference a b = calculate_absolute_angle_difference b a ∧
    0 ≤ calculate_absolute_angle_difference a b ∧
    calculate_absolute_angle_difference a b ≤ 180 ∧
    calculate_absolute_angle_difference 350 190 = 20 := by
  refine ⟨cad_symm ha0 ha1 hb0 hb1, cad_nonneg b ha0 ha1, cad_le_180 b, ?_⟩
  rw [cad_of_large (by norm_num) (by norm_num), circdist]
  rw [show (350 : ℝ) - (190 - 180) = 340 by norm_num, abs_of_nonneg (by norm_num : (0:ℝ) ≤ 340)]
  norm_num [min_def]

/-- C6 counterexample: the claim's wraparound example is false on the
code: `calculate_absolute_angle_difference 350 10` is 160, not 20,
because the wind bearing is rotated by 180° before comparison. -/
theorem C6_wraparound_counterexample :
    calculate_absolute_angle_difference 350 10 = 160 ∧
    calculate_absolute_angle_difference 350 10 ≠ 20 := by
  have h : calculate_absolute_angle_difference 350 10 = 160 := by
    rw [cad_of_small (by norm_num) (by norm_num), circdist]
    rw [show (350 : ℝ) - (10 + 180) = 160 by norm_num, abs_of_nonneg (by norm_num : (0:ℝ) ≤ 160)]
    norm_num [min_def]
  exact ⟨h, by rw [h]; norm_num⟩

/-- C6 witness: the symmetry and range facts evaluated at the concrete
bearings 350 and 10. -/
theorem C6_angle_symmetry_witness :
    calculate_absolute_angle_difference 350 10 = calculate_absolute_angle_difference 10 350 ∧
    0 ≤ calculate_absolute_angle_difference 350 10 ∧
    calculate_absolute_angle_difference 350 10 ≤ 180 ∧
    calculate_absolute_angle_difference 350 190 = 20 :=
  C6_angle_symmetry 350 10 (by norm_num) (by norm_num) (by norm_num) (by norm_num)

/-- C5: `is_daylight_hours` qualifies a timestamp exactly when its local
wall-clock time of day lies in the half-open window
`[sunrise time, sunset time)`; a timestamp exactly at sunrise qualifies
(whenever the window is nonempty) and one exactly at sunset never does.
The comparison uses times of day only, so this holds for observations
whose sunrise and sunset belong to their own calendar date in
particular. -/
theorem C5_daylight_boundary (dt sunrise sunset : DateTime) :
    (is_daylight_hours dt sunrise sunset = true ↔
      sunrise.time ≤ dt.time ∧ dt.time < sunset.time) ∧
    (dt.time = sunrise.time → sunrise.time < sunset.time →
      is_daylight_hours dt sunrise sunset = true) ∧
    (dt.time = sunset.time → is_daylight_hours dt sunrise sunset = false) := by
  refine ⟨by simp [is_daylight_hours], ?_, ?_⟩
  · intro h1 h2
    simp [is_daylight_hours, h1, h2]
  · intro h
    simp [is_daylight_hours, h]

/-- C5 witness: sunrise 6, sunset 18; an observation at time 6 qualifies
and an observation at time 18 does not. -/
theorem C5_daylight_boundary_witness :
    is_daylight_hours ⟨0, 6⟩ ⟨0, 6⟩ ⟨0, 18⟩ = true ∧
    is_daylight_hours ⟨0, 18⟩ ⟨0, 6⟩ ⟨0, 18⟩ = false :=
  ⟨(C5_daylight_boundary ⟨0, 6⟩ ⟨0, 6⟩ ⟨0, 18⟩).2.1 rfl (by norm_num),
   (C5_daylight_boundary ⟨0, 18⟩ ⟨0, 6⟩ ⟨0, 18⟩).2.2 rfl⟩

theorem lookup_eq_none_of_not_mem {α β : Type} [BEq α] [LawfulBEq α]
    (a : α) : ∀ l : List (α × β), a ∉ l.map Prod.fst → l.lookup a = none := by
  intro l
  induction l with
  | nil => intro _; rfl
  | cons p t ih =>
      intro h
      simp only [List.map_cons, List.mem_cons] at h
      push_neg at h
      rw [List.lookup]
      have hbeq : (a == p.1) = false := beq_eq_false_iff_ne.2 h.1
      rw [hbeq]
      exact ih h.2

/-- C8 counterexample: the claim asserts case-insensitive matching of
compass labels, but `get_direction_degrees` matches case-sensitively:
a segment whose direction is the lowercase label `"nne"` yields 0
degrees rather than 22.5. -/
theorem C8_case_counterexample :
    KOMSegment.get_direction_degrees
      ⟨"seg", "1 km", "10 m", "nne", "h", "1:00", "20", "2", "1:30", "15"⟩ = 0 ∧
    (0 : ℚ) ≠ 22.5 :=
  ⟨rfl, by norm_num⟩

/-- C8 (amended): `get_direction_degrees` converts a compass label to
degrees by the standard 22.5°-per-point mapping after stripping leading
and trailing whitespace, matching the 16 uppercase labels
case-sensitively; every segment whose stripped direction is outside
that exact-case set (lowercase labels included) yields 0. -/
theorem C8_direction_degrees (segment : KOMSegment) :
    (∀ p ∈ direction_to_degrees, String.mk (stripChars segment.direction.data) = p.1 →
      KOMSegment.get_direction_degrees segment = p.2) ∧
    (String.mk (stripChars segment.direction.data) ∉ direction_to_degrees.map Prod.fst →
      KOMSegment.get_direction_degrees segment = 0) := by
  constructor
  · intro p hp h
    rw [KOMSegment.get_direction_degrees, h]
    fin_cases hp <;> rfl
  · intro h
    rw [KOMSegment.get_direction_degrees, lookup_eq_none_of_not_mem _ _ h]
    rfl

/-- C8 witness: a whitespace-padded uppercase label maps to its degrees
and an unmapped label maps to 0. -/
theorem C8_direction_degrees_witness :
    KOMSegment.get_direction_degrees
      ⟨"seg", "1 km", "10 m", " NNE ", "h", "1:00", "20", "2", "1:30", "15"⟩ = 22.5 ∧
    KOMSegment.get_direction_degrees
      ⟨"seg", "1 km", "10 m", "foo", "h", "1:00", "20", "2", "1:30", "15"⟩ = 0 :=
  ⟨(C8_direction_degrees _).1 ("NNE", 22.5) (by simp [direction_to_degrees]) rfl,
   (C8_direction_degrees _).2 (by decide)⟩

/-- C10: the two compass mappings are mutually inverse on the 16
standard points: for every standard label `L`, `degrees_to_cardinal`
applied to the degrees `get_direction_degrees` assigns to a segment
with direction `L` returns `L` again. -/
theorem C10_compass_round_trip :
    ∀ L ∈ directions, ∀ segment : KOMSegment, segment.direction = L →
      degrees_to_cardinal segment.get_direction_degrees = L := by
  intro L hL segment h
  fin_cases hL
  · rw [KOMSegment.get_direction_degrees, h]
    show degrees_to_cardinal 0 = "N"
    simp only [degrees_to_cardinal]
    norm_num [pyint]
    decide
  · rw [KOMSegment.get_direction_degrees, h]
    show degrees_to_cardinal 22.5 = "NNE"
    simp only [degrees_to_cardinal]
    norm_num [pyint]
    decide
  · rw [KOMSegment.get_direction_degrees, h]
    show degrees_to_cardinal 45 = "NE"
    simp only [degrees_to_cardinal]
    norm_num [pyint]
    decide
  · rw [KOMSegment.get_direction_degrees, h]
    show degrees_to_cardinal 67.5 = "ENE"
    simp only [degrees_to_cardinal]
    norm_num [pyint]
    decide
  · rw [KOMSegment.get_direction_degrees, h]
    show degrees_to_cardinal 90 = "E"
    simp only [degrees_to_cardinal]
    norm_num [pyint]
    decide
  · rw [KOMSegment.get_direction_degrees, h]
    show degrees_to_cardinal 112.5 = "ESE"
    simp only [degrees_to_cardinal]
    norm_num [pyint]
    decide
  · rw [KOMSegment.get_direction_degrees, h]
    show degrees_to_cardinal 135 = "SE"
    simp only [degrees_to_cardinal]
    norm_num [pyint]
    decide
  · rw [KOMSegment.get_direction_degrees, h]
    show degrees_to_cardinal 157.5 = "SSE"
    simp only [degrees_to_cardinal]
    norm_num [pyint]
    decide
  · rw [KOMSegment.get_direction_degrees, h]
    show degrees_to_cardinal 180 = "S"
    simp only [degrees_to_cardinal]
    norm_num [pyint]
    decide
  · rw [KOMSegment.get_direction_degrees, h]
    show degrees_to_cardinal 202.5 = "SSW"
    simp only [degrees_to_cardinal]
    norm_num [pyint]
    decide
  · rw [KOMSegment.get_direction_degrees, h]
    show degrees_to_cardinal 225 = "SW"
    simp only [degrees_to_cardinal]
    norm_num [pyint]
    decide
  · rw [KOMSegment.get_direction_degrees, h]
    show degrees_to_cardinal 247.5 = "WSW"
    simp only [degrees_to_cardinal]
    norm_num [pyint]
    decide
  · rw [KOMSegment.get_direction_degrees, h]
    show degrees_to_cardinal 270 = "W"
    simp only [degrees_to_cardinal]
    norm_num [pyint]
    decide
  · rw [KOMSegment.get_direction_degrees, h]
    show degrees_to_cardinal 292.5 = "WNW"
    simp only [degrees_to_cardinal]
    norm_num [pyint]
    decide
  · rw [KOMSegment.get_direction_degrees, h]
    show degrees_to_cardinal 315 = "NW"
    simp only [degrees_to_cardinal]
    norm_num [pyint]
    decide
  · rw [KOMSegment.get_direction_degrees, h]
    show degrees_to_cardinal 337.5 = "NNW"
    simp only [degrees_to_cardinal]
    norm_num [pyint]
    decide

/-- C10 witness: the round trip evaluated at the label `"NNE"`. -/
theorem C10_compass_round_trip_witness :
    degrees_to_cardinal
      (KOMSegment.get_direction_degrees
        ⟨"seg", "1 km", "10 m", "NNE", "h", "1:00", "20", "2", "1:30", "15"⟩) = "NNE" :=
  C10_compass_round_trip "NNE" (by simp [directions]) _ rfl

theorem parse_time_to_seconds_eval (s : String) (cm cs : List Char) (m sec : ℕ)
    (hsplit : splitOnChar ':' (stripChars (replaceMin s.data)) = [cm, cs])
    (hm : charsToNat? cm = some m) (hs : charsToNat? cs = some sec) :
    parse_time_to_seconds s = some ((m : ℚ) * 60 + (sec : ℚ)) := by
  simp only [parse_time_to_seconds, hsplit, hm, hs]

theorem parse_2000 : parse_time_to_seconds "20:00" = some 1200 := by
  rw [parse_time_to_seconds_eval "20:00" "20".data "00".data 20 0 rfl rfl rfl]
  norm_num

theorem parse_2030 : parse_time_to_seconds "20:30" = some 1230 := by
  rw [parse_time_to_seconds_eval "20:30" "20".data "30".data 20 30 rfl rfl rfl]
  norm_num

theorem parse_2200 : parse_time_to_seconds "22:00" = some 1320 := by
  rw [parse_time_to_seconds_eval "22:00" "22".data "00".data 22 0 rfl rfl rfl]
  norm_num

theorem format_time_difference_needed_eval (kom_time my_time : String) (ks ms : ℚ)
    (mi se : ℤ)
    (hk : parse_time_to_seconds kom_time = some ks)
    (hm : parse_time_to_seconds my_time = some ms)
    (hse : ⌊ms - ks - 60 * (⌊(ms - ks) / 60⌋ : ℚ)⌋ = se)
    (hmi : ⌊(ms - ks) / 60⌋ = mi) :
    format_time_difference_needed kom_time my_time =
      some (toString mi ++ ":" ++
        (if se < 10 then "0" ++ toString se else toString se)) := by
  simp only [format_time_difference_needed, hk, hm]
  rw [hse, hmi]

theorem format_2030_2000 : format_time_difference_needed "20:30" "20:00" = some "-1:30" := by
  rw [format_time_difference_needed_eval "20:30" "20:00" 1230 1200 (-1) 30 parse_2030
    parse_2000 (by norm_num) (by norm_num)]
  norm_num
  rfl

theorem format_2000_2200 : format_time_difference_needed "20:00" "22:00" = some "2:00" := by
  rw [format_time_difference_needed_eval "20:00" "22:00" 1200 1320 2 0 parse_2000
    parse_2200 (by norm_num) (by norm_num)]
  norm_num
  rfl

/-- C9 counterexample: the claim says the reported time difference is
the deficit `personal_seconds - record_seconds` rendered as a signed
`M:SS` string including the negative case, but for record `"20:30"`
and personal `"20:00"` (deficit -30 s) the code prints `"-1:30"`
(floor-division form), not the signed `M:SS` rendering `"-0:30"`. -/
theorem C9_negative_format_counterexample :
    parse_time_to_seconds "20:30" = some 1230 ∧
    parse_time_to_seconds "20:00" = some 1200 ∧
    format_time_difference_needed "20:30" "20:00" = some "-1:30" ∧
    signed_minutes_seconds (1200 - 1230) = "-0:30" ∧
    format_time_difference_needed "20:30" "20:00" ≠
      some (signed_minutes_seconds (1200 - 1230)) := by
  refine ⟨parse_2030, parse_2000, format_2030_2000, rfl, ?_⟩
  rw [format_2030_2000]
  decide

theorem format_time_difference_needed_of_nonneg (kom_time my_time : String)
    (ks ms : ℚ) (n : ℕ)
    (hk : parse_time_to_seconds kom_time = some ks)
    (hm : parse_time_to_seconds my_time = some ms)
    (hdiff : ms - ks = (n : ℚ)) :
    format_time_difference_needed kom_time my_time =
      some (signed_minutes_seconds (n : ℤ)) := by
  have hmi : ⌊(ms - ks) / 60⌋ = ((n / 60 : ℕ) : ℤ) := by
    rw [hdiff, Int.floor_eq_iff]
    constructor
    · push_cast
      rw [le_div_iff₀ (by norm_num : (0:ℚ) < 60)]
      have h1 : (n / 60) * 60 ≤ n := by omega
      exact_mod_cast h1
    · push_cast
      rw [div_lt_iff₀ (by norm_num : (0:ℚ) < 60)]
      have h1 : n < (n / 60 + 1) * 60 := by omega
      exact_mod_cast h1
  have hse : ⌊ms - ks - 60 * (⌊(ms - ks) / 60⌋ : ℚ)⌋ = ((n % 60 : ℕ) : ℤ) := by
    rw [hmi, hdiff]
    have he : (n : ℚ) - 60 * (((n / 60 : ℕ) : ℤ) : ℚ) = ((n % 60 : ℕ) : ℚ) := by
      rw [Int.cast_natCast]
      have h3 : ((60 * (n / 60) + n % 60 : ℕ) : ℚ) = (n : ℚ) := by rw [Nat.div_add_mod]
      push_cast at h3
      linarith
    rw [he, Int.floor_natCast]
  rw [format_time_difference_needed_eval kom_time my_time ks ms ((n / 60 : ℕ) : ℤ)
    ((n % 60 : ℕ) : ℤ) hk hm hse hmi]
  have hsign : ¬ ((n : ℤ) < 0) := not_lt.2 (Int.natCast_nonneg n)
  have habs : (n : ℤ).natAbs = n := Int.natAbs_ofNat n
  simp only [signed_minutes_seconds, habs, if_neg hsign]
  rcases lt_or_ge (n % 60) 10 with h | h
  · rw [if_pos h, if_pos (by exact_mod_cast h : ((n % 60 : ℕ) : ℤ) < 10)]
    rfl
  · rw [if_neg (not_lt.2 h), if_neg (not_lt.2 (by exact_mod_cast h : (10 : ℤ) ≤ ((n % 60 : ℕ) : ℤ)))]
    rfl

theorem calculate_speed_difference_needed_eval (segment : KOMSegment) (dk : ℕ)
    (ks ms : ℚ)
    (hd : ((splitOnChar ' ' segment.distance.data).filter
        (fun w => w ≠ [])).head?.bind charsToNat? = some dk)
    (hk : parse_time_to_seconds segment.kom_time = some ks)
    (hm : parse_time_to_seconds segment.my_time = some ms)
    (hz : ¬ (ks / 3600 = 0 ∨ ms / 3600 = 0)) :
    calculate_speed_difference_needed segment =
      some ((dk : ℚ) * 0.621371 / (ms / 3600),
            (dk : ℚ) * 0.621371 / (ks / 3600) - (dk : ℚ) * 0.621371 / (ms / 3600),
            (dk : ℚ) * 0.621371 / (ks / 3600)) := by
  simp only [calculate_speed_difference_needed, hd, hk, hm, if_neg hz]

/-- C9 (amended): the comparison derives speeds from the distance via
the 0.621371 km-to-miles factor, and the reported time difference is
`personal_seconds - record_seconds` rendered with floor division
(`int(diff // 60)` minutes, `int(diff % 60)` seconds), which coincides
with the signed `M:SS` rendering exactly when the difference is
nonnegative; for negative differences (a personal time faster than the
record) the printed string does not denote the deficit.  For distance
"10 km", record "20:00", personal "22:00" the speeds are within 0.01 of
18.64, 16.95 and 1.70 mph and the time difference prints as "2:00". -/
theorem C9_personal_vs_record (kom_time my_time : String) (ks ms : ℚ) (n : ℕ)
    (hk : parse_time_to_seconds kom_time = some ks)
    (hm : parse_time_to_seconds my_time = some ms)
    (hdiff : ms - ks = (n : ℚ)) :
    format_time_difference_needed kom_time my_time =
      some (signed_minutes_seconds (n : ℤ)) ∧
    calculate_speed_difference_needed
        ⟨"Demo", "10 km", "100 m", "W", "Holder", "20:00", "18.6", "2", "22:00", "17"⟩ =
      some (1864113 / 110000, 1864113 / 1100000, 1864113 / 100000) ∧
    |(1864113 : ℚ) / 110000 - 16.95| ≤ 1 / 100 ∧
    |(1864113 : ℚ) / 1100000 - 1.70| ≤ 1 / 100 ∧
    |(1864113 : ℚ) / 100000 - 18.64| ≤ 1 / 100 ∧
    format_time_difference_needed "20:00" "22:00" = some "2:00" := by
  refine ⟨format_time_difference_needed_of_nonneg kom_time my_time ks ms n hk hm hdiff,
    ?_, by rw [abs_le]; norm_num, by rw [abs_le]; norm_num, by rw [abs_le]; norm_num,
    format_2000_2200⟩
  rw [calculate_speed_difference_needed_eval
    ⟨"Demo", "10 km", "100 m", "W", "Holder", "20:00", "18.6", "2", "22:00", "17"⟩
    10 1200 1320 rfl parse_2000 parse_2200 (by norm_num)]
  norm_num

/-- C9 witness: the format statement applied to record "20:00" and
personal "22:00", a 120-second nonnegative difference. -/
theorem C9_personal_vs_record_witness :
    format_time_difference_needed "20:00" "22:00" =
      some (signed_minutes_seconds ((120 : ℕ) : ℤ)) :=
  (C9_personal_vs_record "20:00" "22:00" 1200 1320 120 parse_2000 parse_2200
    (by norm_num)).1

theorem pyRound_eval {x : ℝ} {z : ℤ} (h1 : Int.fract x ≠ 1 / 2) (h2 : round x = z) :
    pyRound x = z := by
  rw [pyRound, if_neg h1, h2]

theorem pyRound_749 : pyRound ((749 : ℝ) / 1000 * 100) = 75 := by
  refine pyRound_eval ?_ ?_
  · rw [Int.fract]
    norm_num
  · rw [round_eq]
    norm_num

/-- C4: once an observation has passed the daylight, minimum-speed and
nonzero-alignment filters, it is kept exactly when its overall score,
rounded to a whole percent first, is not strictly below the quality
threshold; a raw overall score of 0.749 rounds to 75 % and therefore
passes a threshold of 75. -/
theorem C4_round_before_threshold (segment_deg min_speed tol : ℝ) (q : ℤ) (cap : ℝ)
    (f : WindForecast) (rest : List WindForecast)
    (hday : is_daylight_hours f.datetime f.sunrise f.sunset = true)
    (hspeed : ¬ f.wind_speed < min_speed)
    (halign : calculate_wind_alignment_score segment_deg f.wind_degrees tol ≠ 0) :
    (favorable_conditions segment_deg min_speed tol q cap (f :: rest) =
      if pyRound ((calculate_wind_alignment_score segment_deg f.wind_degrees tol * 0.3 +
            min (f.wind_speed / cap) 1 * 0.7) * 100) < q
      then favorable_conditions segment_deg min_speed tol q cap rest
      else (calculate_wind_alignment_score segment_deg f.wind_degrees tol * 0.3 +
            min (f.wind_speed / cap) 1 * 0.7, f) ::
          favorable_conditions segment_deg min_speed tol q cap rest) ∧
    pyRound ((749 : ℝ) / 1000 * 100) = 75 ∧
    ¬ (pyRound ((749 : ℝ) / 1000 * 100) < 75) := by
  refine ⟨?_, pyRound_749, by rw [pyRound_749]; exact lt_irrefl 75⟩
  simp only [favorable_conditions, hday, hspeed, halign, not_true, if_false, ite_false,
    if_neg, not_false_eq_true]

theorem fav_nil (segment_deg min_speed tol : ℝ) (q : ℤ) (cap : ℝ) :
    favorable_conditions segment_deg min_speed tol q cap [] = [] := rfl

theorem fav_cons_skip_daylight {segment_deg min_speed tol : ℝ} {q : ℤ} {cap : ℝ}
    {f : WindForecast} {rest : List WindForecast}
    (hday : is_daylight_hours f.datetime f.sunrise f.sunset = false) :
    favorable_conditions segment_deg min_speed tol q cap (f :: rest) =
      favorable_conditions segment_deg min_speed tol q cap rest := by
  simp [favorable_conditions, hday]

theorem fav_cons_skip_speed {segment_deg min_speed tol : ℝ} {q : ℤ} {cap : ℝ}
    {f : WindForecast} {rest : List WindForecast}
    (hday : is_daylight_hours f.datetime f.sunrise f.sunset = true)
    (hs : f.wind_speed < min_speed) :
    favorable_conditions segment_deg min_speed tol q cap (f :: rest) =
      favorable_conditions segment_deg min_speed tol q cap rest := by
  simp [favorable_conditions, hday, hs]

theorem fav_cons_skip_threshold {segment_deg min_speed tol : ℝ} {q : ℤ} {cap : ℝ}
    {f : WindForecast} {rest : List WindForecast}
    (hday : is_daylight_hours f.datetime f.sunrise f.sunset = true)
    (hs : ¬ f.wind_speed < min_speed)
    (ha : calculate_wind_alignment_score segment_deg f.wind_degrees tol ≠ 0)
    (hq : pyRound ((calculate_wind_alignment_score segment_deg f.wind_degrees tol * 0.3 +
        min (f.wind_speed / cap) 1 * 0.7) * 100) < q) :
    favorable_conditions segment_deg min_speed tol q cap (f :: rest) =
      favorable_conditions segment_deg min_speed tol q cap rest := by
  simp [favorable_conditions, hday, hs, ha, hq]

theorem fav_cons_keep {segment_deg min_speed tol : ℝ} {q : ℤ} {cap : ℝ}
    {f : WindForecast} {rest : List WindForecast}
    (hday : is_daylight_hours f.datetime f.sunrise f.sunset = true)
    (hs : ¬ f.wind_speed < min_speed)
    (ha : calculate_wind_alignment_score segment_deg f.wind_degrees tol ≠ 0)
    (hq : ¬ pyRound ((calculate_wind_alignment_score segment_deg f.wind_degrees tol * 0.3 +
        min (f.wind_speed / cap) 1 * 0.7) * 100) < q) :
    favorable_conditions segment_deg min_speed tol q cap (f :: rest) =
      (calculate_wind_alignment_score segment_deg f.wind_degrees tol * 0.3 +
        min (f.wind_speed / cap) 1 * 0.7, f) ::
        favorable_conditions segment_deg min_speed tol q cap rest := by
  simp [favorable_conditions, hday, hs, ha, hq]

theorem obsA_daylight : is_daylight_hours obsA.datetime obsA.sunrise obsA.sunset = true := by
  norm_num [is_daylight_hours, obsA]

theorem obsB_daylight : is_daylight_hours obsB.datetime obsB.sunrise obsB.sunset = true := by
  norm_num [is_daylight_hours, obsB]

theorem obsC_night : is_daylight_hours obsC.datetime obsC.sunrise obsC.sunset = false := by
  norm_num [is_daylight_hours, obsC]

theorem align_270_90 : calculate_wind_alignment_score 270 90 15 = 1 :=
  alignment_one_of_cad_zero (by norm_num) cad_270_90

theorem obsA_align : calculate_wind_alignment_score 270 obsA.wind_degrees 15 = 1 := by
  rw [show obsA.wind_degrees = (90 : ℝ) from rfl]
  exact align_270_90

theorem pyRound_100 : pyRound (100 : ℝ) = 100 := by
  refine pyRound_eval ?_ ?_
  · rw [Int.fract]
    norm_num
  · rw [round_eq]
    norm_num

theorem pyRound_65 : pyRound (65 : ℝ) = 65 := by
  refine pyRound_eval ?_ ?_
  · rw [Int.fract]
    norm_num
  · rw [round_eq]
    norm_num

theorem obsA_overall_20 :
    calculate_wind_alignment_score 270 obsA.wind_degrees 15 * 0.3 +
      min (obsA.wind_speed / 20) 1 * 0.7 = 1 := by
  rw [obsA_align, show obsA.wind_speed = (20 : ℝ) from rfl]
  norm_num

theorem obsA_keep_20 :
    ¬ pyRound ((calculate_wind_alignment_score 270 obsA.wind_degrees 15 * 0.3 +
        min (obsA.wind_speed / 20) 1 * 0.7) * 100) < 75 := by
  rw [show (calculate_wind_alignment_score 270 obsA.wind_degrees 15 * 0.3 +
      min (obsA.wind_speed / 20) 1 * 0.7) * 100 = 100 by rw [obsA_overall_20]; norm_num]
  rw [pyRound_100]
  norm_num

theorem favA_20 : favorable_conditions 270 15 15 75 20 [obsA] = [(1, obsA)] := by
  rw [fav_cons_keep obsA_daylight (by norm_num [obsA]) (by rw [obsA_align]; norm_num)
    obsA_keep_20, obsA_overall_20, fav_nil]

theorem favABC_20 :
    favorable_conditions 270 15 15 75 20 [obsA, obsB, obsC] = [(1, obsA)] := by
  rw [fav_cons_keep obsA_daylight (by norm_num [obsA]) (by rw [obsA_align]; norm_num)
    obsA_keep_20, obsA_overall_20,
    fav_cons_skip_speed obsB_daylight (by norm_num [obsB]),
    fav_cons_skip_daylight obsC_night, fav_nil]

theorem engine_ABC_20 :
    find_favorable_wind_conditions_for_a_segment 270 [obsA, obsB, obsC] 15 15 75 20 =
      [(1, obsA)] := by
  simp only [find_favorable_wind_conditions_for_a_segment, favABC_20]
  rfl

theorem engine_A_20 :
    find_favorable_wind_conditions_for_a_segment 270 [obsA] 15 15 75 20 = [(1, obsA)] := by
  simp only [find_favorable_wind_conditions_for_a_segment, favA_20]
  rfl

theorem obsA_skip_40 :
    pyRound ((calculate_wind_alignment_score 270 obsA.wind_degrees 15 * 0.3 +
        min (obsA.wind_speed / 40) 1 * 0.7) * 100) < 75 := by
  rw [show (calculate_wind_alignment_score 270 obsA.wind_degrees 15 * 0.3 +
      min (obsA.wind_speed / 40) 1 * 0.7) * 100 = 65 by
    rw [obsA_align, show obsA.wind_speed = (20 : ℝ) from rfl]
    norm_num]
  rw [pyRound_65]
  norm_num

theorem favA_40 : favorable_conditions 270 15 15 75 40 [obsA] = [] := by
  rw [fav_cons_skip_threshold obsA_daylight (by norm_num [obsA])
    (by rw [obsA_align]; norm_num) obsA_skip_40, fav_nil]

theorem engine_A_40 :
    find_favorable_wind_conditions_for_a_segment 270 [obsA] 15 15 75 40 = [] := by
  simp only [find_favorable_wind_conditions_for_a_segment, favA_40]
  rfl

/-- C1: the end-to-end scenario.  With segment bearing 270°, tolerance
15°, minimum speed 15 mph, quality threshold 75 and cap 20 mph, the
engine on observations A (wind from 90° at 20 mph, in daylight),
B (wind from 95° at 10 mph, in daylight) and C (A's wind after sunset)
returns exactly `[(1.0, A)]`; A scores alignment 1, speed 1 and
overall 1, B fails the minimum-speed test (it is in daylight but too
slow), and C fails the daylight test. -/
theorem C1_end_to_end_scenario :
    find_favorable_wind_conditions_for_a_segment 270 [obsA, obsB, obsC] 15 15 75 20 =
      [(1, obsA)] ∧
    calculate_wind_alignment_score 270 90 15 = 1 ∧
    min (obsA.wind_speed / 20) 1 = 1 ∧
    calculate_wind_alignment_score 270 obsA.wind_degrees 15 * 0.3 +
      min (obsA.wind_speed / 20) 1 * 0.7 = 1 ∧
    is_daylight_hours obsB.datetime obsB.sunrise obsB.sunset = true ∧
    obsB.wind_speed < 15 ∧
    is_daylight_hours obsC.datetime obsC.sunrise obsC.sunset = false :=
  ⟨engine_ABC_20, align_270_90,
   by rw [show obsA.wind_speed = (20 : ℝ) from rfl]; norm_num,
   obsA_overall_20, obsB_daylight, by norm_num [obsB], obsC_night⟩

/-- C7 counterexample: the engine is not a function of its five explicit
parameters alone; it also reads the configured speed-normalization cap
`Config.TOP_WIND_SPEED`.  Two invocations with identical five arguments
but caps 20 and 40 disagree: with cap 20 observation A scores 100 % and
is returned, with cap 40 it scores 65 % and is filtered out. -/
theorem C7_hidden_cap_counterexample :
    find_favorable_wind_conditions_for_a_segment 270 [obsA] 15 15 75 20 = [(1, obsA)] ∧
    find_favorable_wind_conditions_for_a_segment 270 [obsA] 15 15 75 40 = [] ∧
    find_favorable_wind_conditions_for_a_segment 270 [obsA] 15 15 75 20 ≠
      find_favorable_wind_conditions_for_a_segment 270 [obsA] 15 15 75 40 := by
  refine ⟨engine_A_20, engine_A_40, ?_⟩
  rw [engine_A_20, engine_A_40]
  simp

/-- C7 (amended): the engine's output is a deterministic pure function
of its five explicit parameters together with the configured
speed-normalization cap (`Config.TOP_WIND_SPEED`), which it reads from
the global configuration: any two invocations agreeing on all six of
these values produce equal results. -/
theorem C7_determinism (sd : ℝ) (l : List WindForecast) (ms tol : ℝ) (q : ℤ) (cap : ℝ)
    (sd2 : ℝ) (l2 : List WindForecast) (ms2 tol2 : ℝ) (q2 : ℤ) (cap2 : ℝ)
    (h1 : sd = sd2) (h2 : l = l2) (h3 : ms = ms2) (h4 : tol = tol2) (h5 : q = q2)
    (h6 : cap = cap2) :
    find_favorable_wind_conditions_for_a_segment sd l ms tol q cap =
      find_favorable_wind_conditions_for_a_segment sd2 l2 ms2 tol2 q2 cap2 := by
  rw [h1, h2, h3, h4, h5, h6]

/-- C7 witness: determinism applied at concrete equal arguments. -/
theorem C7_determinism_witness :
    find_favorable_wind_conditions_for_a_segment 270 [obsA] 15 15 75 20 =
      find_favorable_wind_conditions_for_a_segment 270 [obsA] 15 15 75 20 :=
  C7_determinism 270 [obsA] 15 15 75 20 270 [obsA] 15 15 75 20 rfl rfl rfl rfl rfl rfl

/-- C4 witness: the threshold equation applied to observation A with
segment bearing 270°, thresholds 15/15/75 and cap 20. -/
theorem C4_round_before_threshold_witness :
    (favorable_conditions 270 15 15 75 20 (obsA :: []) =
      if pyRound ((calculate_wind_alignment_score 270 obsA.wind_degrees 15 * 0.3 +
            min (obsA.wind_speed / 20) 1 * 0.7) * 100) < 75
      then favorable_conditions 270 15 15 75 20 []
      else (calculate_wind_alignment_score 270 obsA.wind_degrees 15 * 0.3 +
            min (obsA.wind_speed / 20) 1 * 0.7, obsA) ::
          favorable_conditions 270 15 15 75 20 []) ∧
    pyRound ((749 : ℝ) / 1000 * 100) = 75 ∧
    ¬ (pyRound ((749 : ℝ) / 1000 * 100) < 75) :=
  C4_round_before_threshold 270 15 15 75 20 obsA [] obsA_daylight (by norm_num [obsA])
    (by rw [obsA_align]; norm_num)

theorem scoreSorted_insertionSort (l : List (ℝ × WindForecast)) :
    List.Pairwise (fun a b : ℝ × WindForecast => b.1 ≤ a.1)
      (List.insertionSort (fun a b => b.1 ≤ a.1) l) := by
  haveI ht : IsTotal (ℝ × WindForecast) (fun a b => b.1 ≤ a.1) := ⟨fun a b => le_total b.1 a.1⟩
  haveI htr : IsTrans (ℝ × WindForecast) (fun a b => b.1 ≤ a.1) :=
    ⟨fun _ _ _ h1 h2 => le_trans h2 h1⟩
  exact List.sorted_insertionSort _ l

theorem filter_orderedInsert_stable (p : ℝ × WindForecast → Bool)
    (hp : ∀ x y, p x = true → p y = true → x.1 = y.1) (a : ℝ × WindForecast) :
    ∀ l : List (ℝ × WindForecast),
      (List.orderedInsert (fun a b => b.1 ≤ a.1) a l).filter p = (a :: l).filter p := by
  intro l
  induction l with
  | nil => rfl
  | cons b t ih =>
      simp only [List.orderedInsert]
      by_cases h : b.1 ≤ a.1
      · rw [if_pos h]
      · rw [if_neg h]
        by_cases hpa : p a = true
        · by_cases hpb : p b = true
          · exact absurd (le_of_eq (hp a b hpa hpb).symm) h
          · simp [List.filter_cons, hpa, hpb, ih]
        · simp [List.filter_cons, hpa, ih]

theorem filter_insertionSort_stable (p : ℝ × WindForecast → Bool)
    (hp : ∀ x y, p x = true → p y = true → x.1 = y.1) :
    ∀ l : List (ℝ × WindForecast),
      (List.insertionSort (fun a b => b.1 ≤ a.1) l).filter p = l.filter p := by
  intro l
  induction l with
  | nil => rfl
  | cons a t ih =>
      simp only [List.insertionSort]
      rw [filter_orderedInsert_stable p hp a _]
      simp [List.filter_cons, ih]

theorem dates_pairwise_lt (l : List ℤ) (h : l.Nodup) :
    List.Pairwise (fun a b : ℤ => a < b) (List.insertionSort (fun a b : ℤ => a ≤ b) l) := by
  have hs : List.Sorted (fun a b : ℤ => a ≤ b)
      (List.insertionSort (fun a b : ℤ => a ≤ b) l) := List.sorted_insertionSort _ l
  have hn : (List.insertionSort (fun a b : ℤ => a ≤ b) l).Nodup :=
    (List.perm_insertionSort _ l).nodup_iff.2 h
  exact (hs.and hn).imp fun hab => lt_of_le_of_ne hab.1 hab.2

theorem chain_flatten_blocks (f : ℤ → List (ℝ × WindForecast))
    (hdate : ∀ d x, x ∈ f d → x.2.datetime.date = d)
    (hsorted : ∀ d, List.Pairwise (fun a b : ℝ × WindForecast => b.1 ≤ a.1) (f d)) :
    ∀ ds : List ℤ, List.Pairwise (fun a b : ℤ => a < b) ds →
      List.Chain' (fun a b : ℝ × WindForecast => a.2.datetime.date < b.2.datetime.date ∨
        (a.2.datetime.date = b.2.datetime.date ∧ b.1 ≤ a.1)) ((ds.map f).flatten) := by
  intro ds
  induction ds with
  | nil => intro _; simp
  | cons d ds ih =>
      intro hpw
      rw [List.map_cons, List.flatten_cons]
      refine List.Chain'.append ?_ (ih hpw.of_cons) ?_
      · refine List.Pairwise.chain' ?_
        refine ((hsorted d).imp_of_mem ?_)
        intro a b ha hb hr
        exact Or.inr ⟨(hdate d a ha).trans (hdate d b hb).symm, hr⟩
      · intro x hx y hy
        have hxm : x ∈ f d := by
          obtain ⟨hne, rfl⟩ := List.mem_getLast?_eq_getLast hx
          exact List.getLast_mem hne
        have hym : y ∈ (ds.map f).flatten := by
          rw [List.eq_cons_of_mem_head? hy]
          exact List.mem_cons_self _ _
        obtain ⟨l, hl, hyl⟩ := List.mem_flatten.1 hym
        obtain ⟨d2, hd2, rfl⟩ := List.mem_map.1 hl
        left
        rw [hdate d x hxm, hdate d2 y hyl]
        exact (List.pairwise_cons.1 hpw).1 d2 hd2

theorem filter_flatten_blocks (p : ℝ × WindForecast → Bool)
    (f : ℤ → List (ℝ × WindForecast)) (d : ℤ)
    (hother : ∀ e, e ≠ d → (f e).filter p = []) :
    ∀ ds : List ℤ, ds.Nodup →
      ((ds.map f).flatten).filter p = if d ∈ ds then (f d).filter p else [] := by
  intro ds
  induction ds with
  | nil => intro _; simp
  | cons e ds ih =>
      intro hnd
      rw [List.map_cons, List.flatten_cons, List.filter_append, ih (List.nodup_cons.1 hnd).2]
      by_cases he : e = d
      · subst he
        rw [if_neg (List.nodup_cons.1 hnd).1, if_pos (List.mem_cons_self _ _)]
        simp
      · rw [hother e he]
        have hmem : (d ∈ e :: ds) ↔ (d ∈ ds) := by
          simp [List.mem_cons, Ne.symm he]
        rw [List.nil_append]
        simp only [hmem]

/-- C2: for every input, the engine's output, split into maximal runs of
equal calendar date, has the runs in strictly ascending date order with
scores non-increasing inside each run (each adjacent pair either moves
strictly forward in date or stays on the same date with a
non-increasing score), and the within-date sort is stable: restricted
to any one date and score value, the output lists exactly the entries
of the filter loop's survivor list (which preserves input encounter
order), in that order. -/
theorem C2_grouping_invariant (segment_deg min_speed tol : ℝ) (q : ℤ) (cap : ℝ)
    (forecast_list : List WindForecast) :
    List.Chain' (fun a b : ℝ × WindForecast => a.2.datetime.date < b.2.datetime.date ∨
        (a.2.datetime.date = b.2.datetime.date ∧ b.1 ≤ a.1))
      (find_favorable_wind_conditions_for_a_segment segment_deg forecast_list
        min_speed tol q cap) ∧
    ∀ (d : ℤ) (s : ℝ),
      (find_favorable_wind_conditions_for_a_segment segment_deg forecast_list
          min_speed tol q cap).filter
        (fun x => decide (x.2.datetime.date = d ∧ x.1 = s)) =
      (favorable_conditions segment_deg min_speed tol q cap forecast_list).filter
        (fun x => decide (x.2.datetime.date = d ∧ x.1 = s)) := by
  have hfind : find_favorable_wind_conditions_for_a_segment segment_deg forecast_list
      min_speed tol q cap =
      ((List.insertionSort (fun a b : ℤ => a ≤ b)
          (((favorable_conditions segment_deg min_speed tol q cap forecast_list).map
            (fun x => x.2.datetime.date)).dedup)).map
        (fun e => List.insertionSort (fun a b : ℝ × WindForecast => b.1 ≤ a.1)
          ((favorable_conditions segment_deg min_speed tol q cap forecast_list).filter
            (fun x => decide (x.2.datetime.date = e))))).flatten := rfl
  constructor
  · rw [hfind]
    apply chain_flatten_blocks
    · intro e x hx
      have hx2 : x ∈ (favorable_conditions segment_deg min_speed tol q cap
          forecast_list).filter (fun x => decide (x.2.datetime.date = e)) :=
        (List.perm_insertionSort _ _).mem_iff.1 hx
      exact of_decide_eq_true (List.mem_filter.1 hx2).2
    · intro e
      exact scoreSorted_insertionSort _
    · exact dates_pairwise_lt _ (List.nodup_dedup _)
  · intro d s
    rw [hfind]
    set p := fun x : ℝ × WindForecast => decide (x.2.datetime.date = d ∧ x.1 = s) with hpdef
    have hp : ∀ x y, p x = true → p y = true → x.1 = y.1 := by
      intro x y hx hy
      rw [(of_decide_eq_true hx).2, (of_decide_eq_true hy).2]
    have hnod : (List.insertionSort (fun a b : ℤ => a ≤ b)
        (((favorable_conditions segment_deg min_speed tol q cap forecast_list).map
          (fun x => x.2.datetime.date)).dedup)).Nodup :=
      (List.perm_insertionSort _ _).nodup_iff.2 (List.nodup_dedup _)
    rw [filter_flatten_blocks p _ d ?hother _ hnod]
    case hother =>
      intro e he
      rw [filter_insertionSort_stable p hp]
      refine List.filter_eq_nil_iff.2 ?_
      intro x hx hpx
      have hde : x.2.datetime.date = e := of_decide_eq_true (List.mem_filter.1 hx).2
      have hdd : x.2.datetime.date = d := (of_decide_eq_true hpx).1
      exact he (by rw [← hde, hdd])
    by_cases hd : d ∈ List.insertionSort (fun a b : ℤ => a ≤ b)
        (((favorable_conditions segment_deg min_speed tol q cap forecast_list).map
          (fun x => x.2.datetime.date)).dedup)
    · rw [if_pos hd, filter_insertionSort_stable p hp, List.filter_filter]
      refine List.filter_congr ?_
      intro x hx
      by_cases h1 : x.2.datetime.date = d <;> by_cases h2 : x.1 = s <;>
        simp [hpdef, h1, h2]
    · rw [if_neg hd]
      refine (List.filter_eq_nil_iff.2 ?_).symm
      intro x hx hpx
      apply hd
      rw [(List.perm_insertionSort _ _).mem_iff, List.mem_dedup]
      exact List.mem_map.2 ⟨x, hx, (of_decide_eq_true hpx).1⟩
